import Mathlib

/-!
Shallow embedding of the Utah golf tee-time aggregation backend
(`src/server.js` and the unnamed variant `src/unnamed/part_001`).

JavaScript truthiness on optional upstream fields is made explicit:
`none` models `undefined`/`null`; a present numeric `0`, the empty string
and `false` are falsy, exactly as in the source's uses of `||`.
Prices are modelled as rationals, cache timestamps as naturals.
-/

/-- JavaScript string truthiness: `undefined`/`null` and the empty string are falsy. -/
def jsStrTruthy : Option String → Bool
  | none => false
  | some s => decide (s ≠ "")

/-- The expression `a || b` on optional strings, as in `slot.time || slot.start_time`. -/
def jsStrOr (a b : Option String) : Option String :=
  if jsStrTruthy a then a else b

/-- JavaScript numeric truthiness of an optional number: absent and `0` are falsy. -/
def qTruthy : Option ℚ → Bool
  | none => false
  | some q => decide (q ≠ 0)

/-- The expression `a || k` on an optional number and a constant: `a` wins iff present and nonzero. -/
def jsNumOr (a : Option ℚ) (k : ℚ) : ℚ :=
  match a with
  | some x => if x = 0 then k else x
  | none => k

/-- Integer version of `jsNumOr`, for fields fed to `parseInt`. -/
def jsIntOr (a : Option Int) (k : Int) : Int :=
  match a with
  | some x => if x = 0 then k else x
  | none => k

/-- Strict comparison `field === true` on an optional boolean (also models
`a || b || false` chains on boolean fields). -/
def isTrueOpt : Option Bool → Bool
  | some true => true
  | _ => false

/-- Numeric value of a decimal digit character. -/
def digitVal (c : Char) : Nat := c.toNat - '0'.toNat

/-- Value of a list of decimal digit characters, most significant first. -/
def natOfDigits (ds : List Char) : Nat :=
  ds.foldl (fun a c => a * 10 + digitVal c) 0

/-- Scanner for the source regex `\$?(\d+(?:\.\d{2})?)` followed by `parseFloat`:
find the first digit, take the maximal digit run, then exactly two fractional
digits when a decimal point with at least two digits follows. -/
def priceExtractAux : List Char → Option ℚ
  | [] => none
  | c :: rest =>
    if c.isDigit then
      let ds := (c :: rest).takeWhile Char.isDigit
      let tail := (c :: rest).dropWhile Char.isDigit
      let ip : ℚ := (natOfDigits ds : ℚ)
      match tail with
      | '.' :: d1 :: d2 :: _ =>
        if d1.isDigit && d2.isDigit then
          some (ip + ((digitVal d1 * 10 + digitVal d2 : Nat) : ℚ) / 100)
        else some ip
      | _ => some ip
    else priceExtractAux rest

/-- Price extracted from a rendered price text, `none` when no digit occurs
(the regex does not match and the source stores `null`). -/
def priceExtract (s : String) : Option ℚ := priceExtractAux s.data

/-- Scanner for the source regex `(\d+)` followed by `parseInt`: the first
maximal digit run of the string. -/
def slotsExtractAux : List Char → Option Int
  | [] => none
  | c :: rest =>
    if c.isDigit then some ((natOfDigits ((c :: rest).takeWhile Char.isDigit) : Nat) : Int)
    else slotsExtractAux rest

/-- Available-slots count extracted from a rendered slots text. -/
def slotsExtract (s : String) : Option Int := slotsExtractAux s.data

/-- Whether the first list occurs at the head of the second list. -/
def leadMatch : List Char → List Char → Bool
  | [], _ => true
  | _ :: _, [] => false
  | a :: as, b :: bs => (a == b) && leadMatch as bs

/-- Whether the pattern occurs anywhere inside the character list. -/
def charsHave (pat : List Char) : List Char → Bool
  | [] => leadMatch pat []
  | b :: bs => leadMatch pat (b :: bs) || charsHave pat bs

/-- JavaScript `s.includes(pat)`. -/
def strHas (s pat : String) : Bool := charsHave pat.data s.data

/-- JavaScript `s.toLowerCase()` (computable character-list implementation). -/
def strLower (s : String) : String :=
  String.mk (s.data.map Char.toLower)

/-- JavaScript `s.trim()`: leading and trailing whitespace removed
(computable character-list implementation). -/
def strTrim (s : String) : String :=
  String.mk (((s.data.dropWhile Char.isWhitespace).reverse.dropWhile Char.isWhitespace).reverse)

/-- Canonical normalized tee-time slot. The browser-rendered scraper sets no
`holes` key at all, hence the optional type; direct-API scrapers always set it. -/
structure TeeTimeSlot where
  time : String
  price : Option ℚ
  availableSlots : Int
  holes : Option Int
  isHotDeal : Bool
deriving DecidableEq

/-- Entry of the static `UTAH_COURSES` registry. -/
structure Course where
  id : String
  name : String
  bookingUrl : String
  bookingSystem : String
  city : String
deriving DecidableEq

def bonneville : Course :=
  { id := "bonneville", name := "Bonneville Golf Course"
  , bookingUrl := "https://foreupsoftware.com/index.php/booking/20287/5495"
  , bookingSystem := "foreup", city := "Salt Lake City" }

def mountainDellCanyon : Course :=
  { id := "mountain-dell-canyon", name := "Mountain Dell Golf Course - Canyon"
  , bookingUrl := "https://foreupsoftware.com/index.php/booking/20287/5496"
  , bookingSystem := "foreup", city := "Salt Lake City" }

def riverOaks : Course :=
  { id := "river-oaks", name := "River Oaks Golf Course"
  , bookingUrl := "https://www.golfnow.com/tee-times/facility/19765-river-oaks-golf-course/search"
  , bookingSystem := "golfnow", city := "Sandy" }

def thanksgivingPoint : Course :=
  { id := "thanksgiving-point", name := "Thanksgiving Point Golf Club"
  , bookingUrl := "https://www.golfnow.com/tee-times/facility/1126-thanksgiving-point-golf-club/search"
  , bookingSystem := "golfnow", city := "Lehi" }

def meadowbrook : Course :=
  { id := "meadowbrook", name := "Meadowbrook Golf Course"
  , bookingUrl := "https://www.chronogolf.com/course/meadowbrook-golf-course"
  , bookingSystem := "chronogolf", city := "Taylorsville" }

def utahCourses : List Course :=
  [bonneville, mountainDellCanyon, riverOaks, thanksgivingPoint, meadowbrook]

/-- A DOM node matched by the GolfNow multi-selector, with the three optional
sub-selected texts, the class list and the full text content. -/
structure GolfNowElem where
  timeText : Option String
  priceText : Option String
  slotsText : Option String
  classes : List String
  text : String
deriving DecidableEq

/-- Per-element extraction of `GolfNowScraper`'s `page.evaluate` callback:
a record is produced only when both the time text and the price text are
truthy; price is the regex capture or `null`, slots default to 4, no `holes`
field is set. -/
def golfNowExtractOne (e : GolfNowElem) : Option TeeTimeSlot :=
  let tt := e.timeText.map strTrim
  let pt := e.priceText.map strTrim
  let st := e.slotsText.map strTrim
  if jsStrTruthy tt && jsStrTruthy pt then
    some
      { time := tt.getD ""
      , price := priceExtract (pt.getD "")
      , availableSlots :=
          match st.bind slotsExtract with
          | some n => n
          | none => 4
      , holes := none
      , isHotDeal := e.classes.contains "hot-deal" || strHas (strLower e.text) "hot" }
  else none

/-- The full GolfNow DOM extraction over all matched elements. -/
def golfNowExtract (es : List GolfNowElem) : List TeeTimeSlot :=
  es.filterMap golfNowExtractOne

/-- A raw record of the ForeUp booking-times JSON response (`src/server.js`). -/
structure ForeUpRaw where
  time : Option String
  start_time : Option String
  green_fee : Option ℚ
  price : Option ℚ
  available_spots : Option Int
  max_players : Option Int
  holes : Option Int
  special : Option Bool
  is_special : Option Bool
deriving DecidableEq

/-- Per-record map of `ForeUpScraper.scrapeTeeTimes`:
`price: parseFloat(slot.green_fee || slot.price || 50)`,
`availableSlots: parseInt(slot.available_spots || slot.max_players || 4)`,
`holes: parseInt(slot.holes || 18)`,
`isHotDeal: slot.special === true || slot.is_special === true`.
A record whose `time || start_time` is falsy gets time `""` here and is removed
by the subsequent filter, matching `.filter(time => time.time)`. -/
def foreUpMap (r : ForeUpRaw) : TeeTimeSlot :=
  { time := (jsStrOr r.time r.start_time).getD ""
  , price := some (jsNumOr r.green_fee (jsNumOr r.price 50))
  , availableSlots := jsIntOr r.available_spots (jsIntOr r.max_players 4)
  , holes := some (jsIntOr r.holes 18)
  , isHotDeal := isTrueOpt r.special || isTrueOpt r.is_special }

/-- ForeUp batch normalization: map every record, then drop the ones whose
required time is missing. -/
def foreUpNormalize (rs : List ForeUpRaw) : List TeeTimeSlot :=
  (rs.map foreUpMap).filter (fun s => s.time ≠ "")

/-- A raw record of the Chronogolf tee-times response as read by
`src/unnamed/part_001` (`rate_price` stands for the nested `slot.rate?.price`). -/
structure ChronoRaw where
  start_time : Option String
  time : Option String
  rate_price : Option ℚ
  price : Option ℚ
  green_fee : Option ℚ
  available_spots : Option Int
  remaining_spots : Option Int
  holes : Option Int
  nb_holes : Option Int
  is_deal : Option Bool
  special_rate : Option Bool
deriving DecidableEq

/-- Per-record map of `ChronogolfScraper.scrapeTeeTimes` in `src/unnamed/part_001`. -/
def chronoMap (r : ChronoRaw) : TeeTimeSlot :=
  { time := (jsStrOr r.start_time r.time).getD ""
  , price := some (jsNumOr r.rate_price (jsNumOr r.price (jsNumOr r.green_fee 50)))
  , availableSlots := jsIntOr r.available_spots (jsIntOr r.remaining_spots 4)
  , holes := some (jsIntOr r.holes (jsIntOr r.nb_holes 18))
  , isHotDeal := isTrueOpt r.is_deal || isTrueOpt r.special_rate }

/-- Chronogolf batch normalization of `src/unnamed/part_001`: map then drop
records whose required time is missing, matching `.filter(time => time.time)`. -/
def chronoNormalize (rs : List ChronoRaw) : List TeeTimeSlot :=
  (rs.map chronoMap).filter (fun s => s.time ≠ "")

/-- Fallback `GenericScraper.scrapeTeeTimes` of `src/server.js`: a fixed
two-slot sample sequence. -/
def genericScrapeServer (_course : Course) (_date : String) : List TeeTimeSlot :=
  [ { time := "7:00 AM", price := some 45, availableSlots := 4, holes := some 18, isHotDeal := false }
  , { time := "7:30 AM", price := some 45, availableSlots := 2, holes := some 18, isHotDeal := false } ]

/-- Fallback `GenericScraper.scrapeTeeTimes` of `src/unnamed/part_001`: always empty. -/
def genericScrapePart001 (_course : Course) (_date : String) : List TeeTimeSlot := []

/-- The four scraper classes the factory can instantiate. -/
inductive ScraperKind where
  | golfnow
  | foreup
  | chronogolf
  | generic
deriving DecidableEq

/-- `ScraperFactory.createScraper`: switch on the booking-system string with a
default branch, never an error. -/
def createScraper (bookingSystem : String) : ScraperKind :=
  if bookingSystem = "golfnow" then ScraperKind.golfnow
  else if bookingSystem = "foreup" then ScraperKind.foreup
  else if bookingSystem = "chronogolf" then ScraperKind.chronogolf
  else ScraperKind.generic

/-- The cache: an association list from keys to a value and its absolute
expiry time (`writeTime + 900`), modelling the redis TTL store. -/
abbrev CacheStore := List (String × (List TeeTimeSlot × Nat))

/-- First-match association lookup. -/
def assocFind (k : String) : List (String × (List TeeTimeSlot × Nat)) → Option (List TeeTimeSlot × Nat)
  | [] => none
  | (k', v) :: rest => if k' = k then some v else assocFind k rest

/-- `redis.get`: a present entry answers only while its expiry lies in the
future; an expired entry behaves as a miss. -/
def cacheGet (c : CacheStore) (now : Nat) (k : String) : Option (List TeeTimeSlot) :=
  (assocFind k c).bind (fun ve => if now < ve.2 then some ve.1 else none)

/-- `redis.setex(key, 900, value)`: overwrite with a fresh 900-second TTL. -/
def cacheSetex (c : CacheStore) (now : Nat) (k : String) (v : List TeeTimeSlot) : CacheStore :=
  (k, (v, now + 900)) :: c

/-- `redis.del(key)`. -/
def cacheDel (c : CacheStore) (k : String) : CacheStore :=
  c.filter (fun p => p.1 ≠ k)

/-- Observable events of one scraper or handler invocation, in order. -/
inductive Ev where
  | cacheGet (k : String)
  | cacheDel (k : String)
  | cacheSet (k : String)
  | pageOpen
  | pageClose
  | fetch
deriving DecidableEq

/-- Outcome of the browser navigation and extraction of one GolfNow fetch:
either the rendered elements, or a thrown error (navigation timeout,
evaluation failure) after the page was opened. -/
inductive GnStep where
  | fetchOk (elems : List GolfNowElem)
  | fetchFail
deriving DecidableEq

/-- Cache key built inside `GolfNowScraper.scrapeTeeTimes`. -/
def gnKey (course : Course) (date : String) : String :=
  "golfnow:" ++ course.id ++ ":" ++ date

/-- `GolfNowScraper.scrapeTeeTimes` of `src/server.js`: cache read first; on a
hit the cached value is returned unchanged; on a miss and an initialized
browser, a page is opened, the DOM extracted, the page closed, the result
cached for 900s.  A thrown navigation or extraction error is caught and yields
the empty list with the cache untouched — and, notably, without a `pageClose`. -/
def golfNowScrape (course : Course) (date : String) (browserUp : Bool) (step : GnStep)
    (c : CacheStore) (now : Nat) : List TeeTimeSlot × CacheStore × List Ev :=
  let key := gnKey course date
  match cacheGet c now key with
  | some v => (v, c, [Ev.cacheGet key])
  | none =>
    if browserUp then
      match step with
      | GnStep.fetchFail => ([], c, [Ev.cacheGet key, Ev.pageOpen])
      | GnStep.fetchOk elems =>
        let ts := golfNowExtract elems
        (ts, cacheSetex c now key ts,
          [Ev.cacheGet key, Ev.pageOpen, Ev.fetch, Ev.pageClose, Ev.cacheSet key])
    else ([], c, [Ev.cacheGet key])

/-- Drop an expected leading character sequence, or fail. -/
def chopLead : List Char → List Char → Option (List Char)
  | [], l => some l
  | _ :: _, [] => none
  | a :: as, b :: bs => if a = b then chopLead as bs else none

/-- Match the source regex `booking\/(\d+)\/(\d+)` at the given position. -/
def bookingIdsAt (l : List Char) : Option (String × String) :=
  match chopLead ("booking/".data) l with
  | none => none
  | some r1 =>
    let d1 := r1.takeWhile Char.isDigit
    if d1.isEmpty then none
    else
      match r1.dropWhile Char.isDigit with
      | '/' :: r2 =>
        let d2 := r2.takeWhile Char.isDigit
        if d2.isEmpty then none else some (String.mk d1, String.mk d2)
      | _ => none

/-- Scan for the first match of `booking\/(\d+)\/(\d+)`. -/
def bookingIdsAux : List Char → Option (String × String)
  | [] => none
  | b :: bs =>
    match bookingIdsAt (b :: bs) with
    | some p => some p
    | none => bookingIdsAux bs

/-- Booking and schedule ids parsed out of a ForeUp booking URL. -/
def bookingIds (url : String) : Option (String × String) := bookingIdsAux url.data

/-- Outcome of the ForeUp HTTP request: the JSON array, or a thrown
transport/timeout error. -/
inductive FuStep where
  | ok (raws : List ForeUpRaw)
  | fail
deriving DecidableEq

/-- Cache key built inside `ForeUpScraper.scrapeTeeTimes`. -/
def fuKey (course : Course) (date : String) : String :=
  "foreup:" ++ course.id ++ ":" ++ date

/-- `ForeUpScraper.scrapeTeeTimes` of `src/server.js`: cache read first; on a
miss, parse the locator (unparseable locator returns empty without caching),
issue the request, normalize, cache for 900s.  A thrown request error is
caught and yields the empty list with the cache untouched. -/
def foreUpScrape (course : Course) (date : String) (step : FuStep)
    (c : CacheStore) (now : Nat) : List TeeTimeSlot × CacheStore × List Ev :=
  let key := fuKey course date
  match cacheGet c now key with
  | some v => (v, c, [Ev.cacheGet key])
  | none =>
    match bookingIds course.bookingUrl with
    | none => ([], c, [Ev.cacheGet key])
    | some _ =>
      match step with
      | FuStep.fail => ([], c, [Ev.cacheGet key, Ev.fetch])
      | FuStep.ok raws =>
        let ts := foreUpNormalize raws
        (ts, cacheSetex c now key ts, [Ev.cacheGet key, Ev.fetch, Ev.cacheSet key])

/-- Cache key built by the `POST /api/refresh/:courseId` handler. -/
def refreshKey (course : Course) (date : String) : String :=
  course.bookingSystem ++ ":" ++ course.id ++ ":" ++ date

/-- The `POST /api/refresh/:courseId` handler of `src/server.js` for a GolfNow
course: `redis.del(cacheKey)` followed by the ordinary
`scraper.scrapeTeeTimes(course, date)` call. -/
def refreshGolfNow (course : Course) (date : String) (browserUp : Bool) (step : GnStep)
    (c : CacheStore) (now : Nat) : List TeeTimeSlot × CacheStore × List Ev :=
  let key := refreshKey course date
  let c1 := cacheDel c key
  let out := golfNowScrape course date browserUp step c1 now
  (out.1, out.2.1, Ev.cacheDel key :: out.2.2)

/-- Slot filter of the `GET /api/search/tee-times` handler:
`if (maxPrice && time.price > maxPrice) return false;
if (time.availableSlots < minSlots) return false; return true;`.
`maxPrice` is `null` when the query parameter is absent; a `null` price
coerces to 0 in the JavaScript comparison. -/
def searchKeep (maxPrice : Option ℚ) (minSlots : Int) (s : TeeTimeSlot) : Bool :=
  if qTruthy maxPrice && decide (s.price.getD 0 > maxPrice.getD 0) then false
  else if decide (s.availableSlots < minSlots) then false
  else true

/-- Search fan-out over already-resolved per-course slots: filter each course's
slots, then drop courses whose filtered list is empty
(`result.teeTimes.length > 0`). -/
def searchAggregate (resolved : List (Course × List TeeTimeSlot)) (maxPrice : Option ℚ)
    (minSlots : Int) : List (Course × List TeeTimeSlot) :=
  (resolved.map (fun p => (p.1, p.2.filter (searchKeep maxPrice minSlots)))).filter
    (fun p => 0 < p.2.length)

/-- Transcription of the claim wording, not of the code: keep a slot iff
`(maxPrice absent OR price ≤ maxPrice) AND availableSlots ≥ minSlots`. -/
def specSearchKeep (maxPrice : Option ℚ) (minSlots : Int) (s : TeeTimeSlot) : Bool :=
  (match maxPrice with
   | none => true
   | some m => decide (s.price.getD 0 ≤ m)) && decide (minSlots ≤ s.availableSlots)

/-- One per-course result of the `POST /api/courses/batch-teetimes` handler. -/
structure BatchEntry where
  courseId : String
  courseName : String
  teeTimes : List TeeTimeSlot
  count : Nat
deriving DecidableEq

/-- The `POST /api/courses/batch-teetimes` handler of `src/unnamed/part_001`:
for each requested id look the course up in the registry (unknown ids resolve
to `null` and are filtered out), resolve its slots, and keep the per-course
entry whether or not its slot list is empty. -/
def batchAggregate (registry : List Course) (courseIds : List String)
    (resolve : Course → List TeeTimeSlot) : List BatchEntry :=
  courseIds.filterMap (fun cid =>
    match registry.find? (fun course => course.id = cid) with
    | none => none
    | some course =>
      let ts := resolve course
      some { courseId := course.id, courseName := course.name
           , teeTimes := ts, count := ts.length })

/-- Deleting a key removes every association for it. -/
theorem assocFind_filter_ne (c : List (String × (List TeeTimeSlot × Nat))) (k : String) :
    assocFind k (c.filter (fun p => p.1 ≠ k)) = none := by
  induction c with
  | nil => rfl
  | cons a rest ih =>
    obtain ⟨k', v⟩ := a
    simp only [ne_eq, decide_not] at ih ⊢
    by_cases h : k' = k
    · simpa [List.filter_cons, h] using ih
    · simp [List.filter_cons, h, assocFind, ih]

/-- A cache read of a freshly deleted key is a miss. -/
theorem cacheGet_cacheDel (c : CacheStore) (now : Nat) (k : String) :
    cacheGet (cacheDel c k) now k = none := by
  unfold cacheGet cacheDel
  rw [assocFind_filter_ne]
  rfl

/-- A key that misses now also misses at any later time: entries only expire. -/
theorem cacheGet_none_mono (c : CacheStore) (k : String) (now now' : Nat)
    (h : cacheGet c now k = none) (hle : now ≤ now') : cacheGet c now' k = none := by
  unfold cacheGet at h ⊢
  cases hfind : assocFind k c with
  | none => simp [hfind]
  | some ve =>
    rw [hfind] at h
    simp only [Option.some_bind] at h
    by_cases hlt : now < ve.2
    · simp [hlt] at h
    · have hlt' : ¬ now' < ve.2 := by omega
      simp [hlt']

/-- C8 (counterexample): courses with an unknown booking-system tag do reach the
fallback scraper deterministically, but the repository's two fallback
implementations disagree on the same input — `src/server.js` returns a fixed
two-slot sample sequence while `src/unnamed/part_001` returns the empty
sequence — so the fallback does not resolve under one consistent, explicit
policy as the claim states. -/
theorem c8_fallback_counterexample :
    createScraper "teesnap" = ScraperKind.generic ∧
    genericScrapeServer
        { id := "mystery", name := "Mystery Golf Club"
        , bookingUrl := "https://example.com/mystery"
        , bookingSystem := "teesnap", city := "Provo" } "2026-10-11" ≠
      genericScrapePart001
        { id := "mystery", name := "Mystery Golf Club"
        , bookingUrl := "https://example.com/mystery"
        , bookingSystem := "teesnap", city := "Provo" } "2026-10-11" := by
  constructor
  · decide
  · decide

/-- C8 (amended): any booking-system tag other than the three known variants
deterministically selects the fallback scraper and dispatch never raises; each
individual fallback is a fixed constant (empty in `src/unnamed/part_001`, a
two-slot sample in `src/server.js`), but the policy differs between the two
source variants. -/
theorem c8_fallback_amended (tag : String) (course course2 : Course) (date date2 : String)
    (h1 : tag ≠ "golfnow") (h2 : tag ≠ "foreup") (h3 : tag ≠ "chronogolf") :
    createScraper tag = ScraperKind.generic ∧
    genericScrapePart001 course date = [] ∧
    genericScrapeServer course date = genericScrapeServer course2 date2 := by
  refine ⟨?_, rfl, rfl⟩
  simp [createScraper, h1, h2, h3]

/-- C8 (witness): instantiation of the amended claim at the unknown tag
"teesnap". -/
theorem c8_fallback_witness :
    ("teesnap" ≠ "golfnow" ∧ "teesnap" ≠ "foreup" ∧ "teesnap" ≠ "chronogolf") ∧
    (createScraper "teesnap" = ScraperKind.generic ∧
     genericScrapePart001 riverOaks "2026-10-11" = [] ∧
     genericScrapeServer riverOaks "2026-10-11" = genericScrapeServer meadowbrook "2026-10-12") :=
  ⟨⟨by decide, by decide, by decide⟩,
    c8_fallback_amended "teesnap" riverOaks meadowbrook "2026-10-11" "2026-10-12"
      (by decide) (by decide) (by decide)⟩

/-- C9 (code bug): when the GolfNow fetch fails after the page was opened (for
example a navigation timeout or extraction error, with a cache miss and an
initialized browser), the catch block returns the empty list without ever
closing the page: the trace records a `pageOpen` with no matching `pageClose`,
leaking the shared rendering resource, while the success path does close it. -/
theorem c9_page_leak_on_failure :
    (golfNowScrape riverOaks "2026-10-11" true GnStep.fetchFail ([] : CacheStore) 0).1 = [] ∧
    Ev.pageOpen ∈ (golfNowScrape riverOaks "2026-10-11" true GnStep.fetchFail ([] : CacheStore) 0).2.2 ∧
    Ev.pageClose ∉ (golfNowScrape riverOaks "2026-10-11" true GnStep.fetchFail ([] : CacheStore) 0).2.2 ∧
    Ev.pageClose ∈ (golfNowScrape riverOaks "2026-10-11" true (GnStep.fetchOk []) ([] : CacheStore) 0).2.2 := by
  refine ⟨rfl, ?_, ?_, ?_⟩ <;> decide

/-- C10: the direct-API normalizers substitute the defaults for numeric source
fields that are present with value 0, because 0 is falsy in the `||` chains: a
fully booked ForeUp slot with `available_spots = 0` (and `max_players = 0`)
becomes `availableSlots = 4`, and a zero `green_fee`/`price` becomes 50; the
Chronogolf normalizer of `src/unnamed/part_001` behaves the same. -/
theorem c10_zero_treated_as_absent (t st : Option String) (h : Option Int)
    (sp isp : Option Bool) (t2 st2 : Option String) (h2 nh2 : Option Int)
    (d2 sr2 : Option Bool) :
    (foreUpMap { time := t, start_time := st, green_fee := some 0, price := some 0
               , available_spots := some 0, max_players := some 0, holes := h
               , special := sp, is_special := isp }).price = some 50 ∧
    (foreUpMap { time := t, start_time := st, green_fee := some 0, price := some 0
               , available_spots := some 0, max_players := some 0, holes := h
               , special := sp, is_special := isp }).availableSlots = 4 ∧
    (chronoMap { start_time := t2, time := st2, rate_price := some 0, price := some 0
               , green_fee := some 0, available_spots := some 0, remaining_spots := some 0
               , holes := h2, nb_holes := nh2, is_deal := d2
               , special_rate := sr2 }).price = some 50 ∧
    (chronoMap { start_time := t2, time := st2, rate_price := some 0, price := some 0
               , green_fee := some 0, available_spots := some 0, remaining_spots := some 0
               , holes := h2, nb_holes := nh2, is_deal := d2
               , special_rate := sr2 }).availableSlots = 4 := by
  refine ⟨?_, ?_, ?_, ?_⟩ <;> simp [foreUpMap, chronoMap, jsNumOr, jsIntOr]

/-- C4 (counterexample): with `maxPrice = 0` (present, not absent) the claim
requires a slot priced 45 to be excluded, but the handler's filter tests
`if (maxPrice && ...)` and the number 0 is falsy, so the price filter is
skipped and the slot is kept; the transcription of the claim's predicate
disagrees with the code's predicate on this input. -/
theorem c4_filter_counterexample :
    searchKeep (some 0) 1
      { time := "7:00 AM", price := some 45, availableSlots := 4
      , holes := some 18, isHotDeal := false } = true ∧
    specSearchKeep (some 0) 1
      { time := "7:00 AM", price := some 45, availableSlots := 4
      , holes := some 18, isHotDeal := false } = false := by
  constructor
  · decide
  · decide

/-- C1 (counterexample): the refresh handler does not bypass the cache read.
With a non-expired entry present for the key before the call, the trace of
`refreshGolfNow` still contains a `cacheGet` event for that key: the handler
deletes the entry and then runs the ordinary cache-aside scrape, which begins
with `redis.get(cacheKey)`; the claim's "bypassing the cache read" would
require this event to be absent. -/
theorem c1_refresh_counterexample :
    Ev.cacheGet (gnKey riverOaks "2026-10-11") ∈
      (refreshGolfNow riverOaks "2026-10-11" true (GnStep.fetchOk [])
        [(gnKey riverOaks "2026-10-11",
          ([{ time := "8:00 AM", price := some 40, availableSlots := 4
            , holes := none, isHotDeal := false }], 900))] 0).2.2 := by
  decide

/-- C1 (amended): `refresh(course, date)` deletes the cache entry for the key
`bookingSystemTag:courseId:date` and then performs the ordinary cache-aside
resolve including its cache read (step 2 is executed, not bypassed); because
the key was just deleted, that read misses in a sequential execution, so the
fetch-and-parse steps do run and the returned slot sequence is the freshly
fetched data, even if a non-expired cache entry existed beforehand. -/
theorem c1_refresh_amended (course : Course) (date : String) (elems : List GolfNowElem)
    (c : CacheStore) (now : Nat) (hbs : course.bookingSystem = "golfnow") :
    (refreshGolfNow course date true (GnStep.fetchOk elems) c now).1 = golfNowExtract elems ∧
    Ev.fetch ∈ (refreshGolfNow course date true (GnStep.fetchOk elems) c now).2.2 ∧
    Ev.cacheGet (gnKey course date) ∈
      (refreshGolfNow course date true (GnStep.fetchOk elems) c now).2.2 := by
  have hk : refreshKey course date = gnKey course date := by
    simp [refreshKey, gnKey, hbs]
  have hmiss : cacheGet (cacheDel c (refreshKey course date)) now (gnKey course date) = none := by
    rw [hk]
    exact cacheGet_cacheDel c now (gnKey course date)
  unfold refreshGolfNow golfNowScrape
  simp [hmiss]

/-- C1 (witness): the amended claim instantiated on the GolfNow course with an
arbitrary prior cache, at time 0. -/
theorem c1_refresh_witness :
    riverOaks.bookingSystem = "golfnow" ∧
    ((refreshGolfNow riverOaks "2026-10-11" true (GnStep.fetchOk []) ([] : CacheStore) 0).1 =
        golfNowExtract [] ∧
     Ev.fetch ∈ (refreshGolfNow riverOaks "2026-10-11" true (GnStep.fetchOk [])
        ([] : CacheStore) 0).2.2 ∧
     Ev.cacheGet (gnKey riverOaks "2026-10-11") ∈
       (refreshGolfNow riverOaks "2026-10-11" true (GnStep.fetchOk [])
        ([] : CacheStore) 0).2.2) :=
  ⟨rfl, c1_refresh_amended riverOaks "2026-10-11" [] ([] : CacheStore) 0 rfl⟩

/-- C2 (counterexample): a ForeUp record carrying a time but no price field at
all is not normalized to a slot with an absent price: the `|| 50` default makes
the price 50, contradicting "absent ... yields a TeeTimeSlot whose price field
is absent (not zero and not any substitute value)". -/
theorem c2_price_counterexample :
    foreUpNormalize [{ time := some "7:00 AM", start_time := none, green_fee := none
                     , price := none, available_spots := none, max_players := none
                     , holes := none, special := none, is_special := none }] =
      [{ time := "7:00 AM", price := some 50, availableSlots := 4, holes := some 18
       , isHotDeal := false }] ∧
    (foreUpMap { time := some "7:00 AM", start_time := none, green_fee := none
               , price := none, available_spots := none, max_players := none
               , holes := none, special := none, is_special := none }).price ≠ none := by
  constructor
  · decide
  · decide

/-- C2 (amended): normalization is total and its defaults are deterministic,
but they differ per scraper family: the direct-API (ForeUp) normalizer turns a
record with every optional field absent into a slot with price 50,
availableSlots 4, holes 18 and isHotDeal false; the browser-rendered (GolfNow)
extractor only produces a record when a price text is present, and a present
but unparseable price text yields a slot whose price field is absent, with
availableSlots defaulting to 4 and no holes field at all. -/
theorem c2_normalizer_amended :
    (∀ t st : Option String,
      foreUpMap { time := t, start_time := st, green_fee := none, price := none
                , available_spots := none, max_players := none, holes := none
                , special := none, is_special := none } =
        { time := (jsStrOr t st).getD "", price := some 50, availableSlots := 4
        , holes := some 18, isHotDeal := false }) ∧
    (∀ (ts ps : String) (ss : Option String) (cls : List String) (tx : String),
      strTrim ts ≠ "" → strTrim ps ≠ "" → priceExtract (strTrim ps) = none →
      golfNowExtractOne { timeText := some ts, priceText := some ps, slotsText := ss
                        , classes := cls, text := tx } =
        some { time := strTrim ts, price := none
             , availableSlots :=
                 match (ss.map strTrim).bind slotsExtract with
                 | some n => n
                 | none => 4
             , holes := none
             , isHotDeal := cls.contains "hot-deal" || strHas (strLower tx) "hot" }) := by
  constructor
  · intro t st
    rfl
  · intro ts ps ss cls tx ht hp hpe
    have h1 : jsStrTruthy (some (strTrim ts)) = true := by simp [jsStrTruthy, ht]
    have h2 : jsStrTruthy (some (strTrim ps)) = true := by simp [jsStrTruthy, hp]
    simp [golfNowExtractOne, h1, h2, hpe]

/-- C2 (witness): the amended claim instantiated on a priceless ForeUp record
and on a GolfNow element whose price text "Call for rates" has no digits. -/
theorem c2_normalizer_witness :
    (strTrim "7:00 AM" ≠ "" ∧ strTrim "Call for rates" ≠ "" ∧
     priceExtract (strTrim "Call for rates") = none) ∧
    foreUpMap { time := some "7:00 AM", start_time := none, green_fee := none
              , price := none, available_spots := none, max_players := none
              , holes := none, special := none, is_special := none } =
      { time := "7:00 AM", price := some 50, availableSlots := 4
      , holes := some 18, isHotDeal := false } ∧
    golfNowExtractOne { timeText := some "7:00 AM", priceText := some "Call for rates"
                      , slotsText := none, classes := [], text := "Call for rates" } =
      some { time := "7:00 AM", price := none, availableSlots := 4, holes := none
           , isHotDeal := false } := by
  refine ⟨⟨by decide, by decide, by decide⟩, ?_, ?_⟩
  · exact (c2_normalizer_amended.1 (some "7:00 AM") none).trans (by decide)
  · exact (c2_normalizer_amended.2 "7:00 AM" "Call for rates" none [] "Call for rates"
      (by decide) (by decide) (by decide)).trans (by decide)

/-- C3: cache-hit determinism. After a first resolution at a cache miss stores
the fetched slots with a 900-second TTL, any second resolution of the same
(course, date) before the TTL elapses returns exactly the first result, leaves
the cache unchanged, and performs no upstream work: its trace contains no fetch
and opens no page — the cached hit value is returned unchanged. -/
theorem c3_cache_hit_determinism (course : Course) (date : String) (elems : List GolfNowElem)
    (c : CacheStore) (now1 now2 : Nat) (bu2 : Bool) (step2 : GnStep)
    (h1 : cacheGet c now1 (gnKey course date) = none)
    (h2 : now2 < now1 + 900) :
    (golfNowScrape course date bu2 step2
        (golfNowScrape course date true (GnStep.fetchOk elems) c now1).2.1 now2).1 =
      (golfNowScrape course date true (GnStep.fetchOk elems) c now1).1 ∧
    Ev.fetch ∉ (golfNowScrape course date bu2 step2
        (golfNowScrape course date true (GnStep.fetchOk elems) c now1).2.1 now2).2.2 ∧
    Ev.pageOpen ∉ (golfNowScrape course date bu2 step2
        (golfNowScrape course date true (GnStep.fetchOk elems) c now1).2.1 now2).2.2 ∧
    (golfNowScrape course date bu2 step2
        (golfNowScrape course date true (GnStep.fetchOk elems) c now1).2.1 now2).2.1 =
      (golfNowScrape course date true (GnStep.fetchOk elems) c now1).2.1 := by
  have hfst : golfNowScrape course date true (GnStep.fetchOk elems) c now1 =
      (golfNowExtract elems,
        cacheSetex c now1 (gnKey course date) (golfNowExtract elems),
        [Ev.cacheGet (gnKey course date), Ev.pageOpen, Ev.fetch, Ev.pageClose,
         Ev.cacheSet (gnKey course date)]) := by
    unfold golfNowScrape
    simp [h1]
  have hget2 : cacheGet (cacheSetex c now1 (gnKey course date) (golfNowExtract elems)) now2
      (gnKey course date) = some (golfNowExtract elems) := by
    simp [cacheGet, cacheSetex, assocFind, h2]
  rw [hfst]
  unfold golfNowScrape
  simp [hget2]

/-- C3 (witness): the determinism theorem instantiated at an empty cache, a
first call at time 0 and a second call at time 100 whose own fetch would fail. -/
theorem c3_cache_hit_witness :
    (cacheGet ([] : CacheStore) 0 (gnKey riverOaks "2026-10-11") = none ∧ 100 < 0 + 900) ∧
    ((golfNowScrape riverOaks "2026-10-11" true GnStep.fetchFail
        (golfNowScrape riverOaks "2026-10-11" true (GnStep.fetchOk [])
          ([] : CacheStore) 0).2.1 100).1 =
      (golfNowScrape riverOaks "2026-10-11" true (GnStep.fetchOk []) ([] : CacheStore) 0).1 ∧
     Ev.fetch ∉ (golfNowScrape riverOaks "2026-10-11" true GnStep.fetchFail
        (golfNowScrape riverOaks "2026-10-11" true (GnStep.fetchOk [])
          ([] : CacheStore) 0).2.1 100).2.2 ∧
     Ev.pageOpen ∉ (golfNowScrape riverOaks "2026-10-11" true GnStep.fetchFail
        (golfNowScrape riverOaks "2026-10-11" true (GnStep.fetchOk [])
          ([] : CacheStore) 0).2.1 100).2.2 ∧
     (golfNowScrape riverOaks "2026-10-11" true GnStep.fetchFail
        (golfNowScrape riverOaks "2026-10-11" true (GnStep.fetchOk [])
          ([] : CacheStore) 0).2.1 100).2.1 =
      (golfNowScrape riverOaks "2026-10-11" true (GnStep.fetchOk []) ([] : CacheStore) 0).2.1) :=
  ⟨⟨rfl, by decide⟩,
    c3_cache_hit_determinism riverOaks "2026-10-11" [] ([] : CacheStore) 0 100 true
      GnStep.fetchFail rfl (by decide)⟩

/-- C4 (amended): a slot is kept iff (maxPrice is absent OR equal to 0 — a zero
maxPrice is falsy and disables the price filter — OR the slot's price, coerced
to 0 when absent, is at most maxPrice) and its availableSlots is at least
minSlots; a course appears in the final result iff its filtered sequence is
non-empty. -/
theorem c4_filter_amended (mp : Option ℚ) (ms : Int)
    (resolved : List (Course × List TeeTimeSlot)) (p : Course × List TeeTimeSlot) :
    (∀ s : TeeTimeSlot, searchKeep mp ms s = true ↔
      ((qTruthy mp = false ∨ s.price.getD 0 ≤ mp.getD 0) ∧ ms ≤ s.availableSlots)) ∧
    (p ∈ searchAggregate resolved mp ms ↔
      ∃ q ∈ resolved, p = (q.1, q.2.filter (searchKeep mp ms)) ∧ p.2 ≠ []) := by
  constructor
  · intro s
    by_cases hq : qTruthy mp = true
    · by_cases hgt : s.price.getD 0 > mp.getD 0
      · have hnle : ¬ s.price.getD 0 ≤ mp.getD 0 := not_le.mpr hgt
        simp [searchKeep, hq, hgt, hnle]
      · have hle : s.price.getD 0 ≤ mp.getD 0 := not_lt.mp hgt
        by_cases hs : s.availableSlots < ms
        · have hnle2 : ¬ ms ≤ s.availableSlots := not_le.mpr hs
          simp [searchKeep, hq, hgt, hs, hnle2]
        · have hle2 : ms ≤ s.availableSlots := not_lt.mp hs
          simp [searchKeep, hq, hgt, hs, hle, hle2]
    · have hq' : qTruthy mp = false := by
        cases hqb : qTruthy mp
        · rfl
        · exact absurd hqb hq
      by_cases hs : s.availableSlots < ms
      · have hnle2 : ¬ ms ≤ s.availableSlots := not_le.mpr hs
        simp [searchKeep, hq', hs, hnle2]
      · have hle2 : ms ≤ s.availableSlots := not_lt.mp hs
        simp [searchKeep, hq', hs, hle2]
  · unfold searchAggregate
    rw [List.mem_filter]
    constructor
    · rintro ⟨hmem, hlen⟩
      rw [List.mem_map] at hmem
      obtain ⟨q, hq, hfq⟩ := hmem
      refine ⟨q, hq, hfq.symm, ?_⟩
      have hpos : 0 < p.2.length := by simpa using hlen
      exact List.length_pos.mp hpos
    · rintro ⟨q, hq, hpq, hne⟩
      refine ⟨?_, ?_⟩
      · rw [List.mem_map]
        exact ⟨q, hq, hpq.symm⟩
      · simpa using List.length_pos.mpr hne

/-- C5: the batch endpoint returns one per-course entry for every requested id
found in the registry, carrying the course's unfiltered slot sequence — in
particular a course resolving to the empty sequence is retained — whereas the
search aggregation drops a course whose slot list is empty. -/
theorem c5_batch_retains_empty (registry : List Course) (ids : List String)
    (resolve : Course → List TeeTimeSlot) (cid : String) (course : Course)
    (hid : cid ∈ ids)
    (hfind : registry.find? (fun x => x.id = cid) = some course) :
    ({ courseId := course.id, courseName := course.name, teeTimes := resolve course
     , count := (resolve course).length } : BatchEntry) ∈ batchAggregate registry ids resolve ∧
    (∀ (c2 : Course) (mp : Option ℚ) (ms : Int), searchAggregate [(c2, [])] mp ms = []) := by
  constructor
  · unfold batchAggregate
    rw [List.mem_filterMap]
    refine ⟨cid, hid, ?_⟩
    rw [hfind]
  · intro c2 mp ms
    rfl

/-- C5 (witness): batching the single id "bonneville" with a resolver that
yields no slots still produces the per-course entry with an empty list. -/
theorem c5_batch_witness :
    ("bonneville" ∈ ["bonneville"] ∧
     utahCourses.find? (fun x => x.id = "bonneville") = some bonneville) ∧
    ({ courseId := bonneville.id, courseName := bonneville.name
     , teeTimes := ([] : List TeeTimeSlot), count := 0 } : BatchEntry) ∈
      batchAggregate utahCourses ["bonneville"] (fun _ => []) := by
  refine ⟨⟨by decide, by decide⟩, ?_⟩
  exact (c5_batch_retains_empty utahCourses ["bonneville"] (fun _ => []) "bonneville"
    bonneville (by decide) (by decide)).1

/-- C6: a record whose required time field is missing (its `time || start_time`
chain is falsy) is dropped by the ForeUp and Chronogolf normalizers, and all
surrounding records of the same batch are still normalized: removing the bad
record splits the normalization exactly, so the batch is never aborted. -/
theorem c6_missing_time_skipped (rs1 rs2 : List ForeUpRaw) (bad : ForeUpRaw)
    (qs1 qs2 : List ChronoRaw) (cbad : ChronoRaw)
    (hb : (jsStrOr bad.time bad.start_time).getD "" = "")
    (hc : (jsStrOr cbad.start_time cbad.time).getD "" = "") :
    foreUpNormalize (rs1 ++ bad :: rs2) = foreUpNormalize rs1 ++ foreUpNormalize rs2 ∧
    chronoNormalize (qs1 ++ cbad :: qs2) = chronoNormalize qs1 ++ chronoNormalize qs2 := by
  have hb' : (foreUpMap bad).time = "" := hb
  have hc' : (chronoMap cbad).time = "" := hc
  constructor
  · simp [foreUpNormalize, List.filter_append, List.filter_cons, hb']
  · simp [chronoNormalize, List.filter_append, List.filter_cons, hc']

/-- C6 (witness): a timeless ForeUp record between two well-formed batches, and
a timeless Chronogolf record before a well-formed record, are each dropped
while the rest of the batch is normalized. -/
theorem c6_missing_time_witness :
    ((jsStrOr (none : Option String) (none : Option String)).getD "" = "") ∧
    foreUpNormalize
        ([{ time := some "8:00 AM", start_time := none, green_fee := none, price := none
          , available_spots := none, max_players := none, holes := none
          , special := none, is_special := none }] ++
          { time := none, start_time := none, green_fee := some 30, price := none
          , available_spots := some 2, max_players := none, holes := none
          , special := none, is_special := none } :: []) =
      foreUpNormalize
        [{ time := some "8:00 AM", start_time := none, green_fee := none, price := none
         , available_spots := none, max_players := none, holes := none
         , special := none, is_special := none }] ++ foreUpNormalize [] ∧
    chronoNormalize
        ([] ++
          ({ start_time := none, time := none, rate_price := none, price := none
           , green_fee := none, available_spots := none, remaining_spots := none
           , holes := none, nb_holes := none, is_deal := none, special_rate := none } : ChronoRaw) ::
          [{ start_time := some "9:00 AM", time := none, rate_price := none, price := none
           , green_fee := none, available_spots := none, remaining_spots := none
           , holes := none, nb_holes := none, is_deal := none, special_rate := none }]) =
      chronoNormalize [] ++ chronoNormalize
        [{ start_time := some "9:00 AM", time := none, rate_price := none, price := none
         , green_fee := none, available_spots := none, remaining_spots := none
         , holes := none, nb_holes := none, is_deal := none, special_rate := none }] := by
  refine ⟨rfl, ?_, ?_⟩
  · exact (c6_missing_time_skipped
      [{ time := some "8:00 AM", start_time := none, green_fee := none, price := none
       , available_spots := none, max_players := none, holes := none
       , special := none, is_special := none }] []
      { time := none, start_time := none, green_fee := some 30, price := none
      , available_spots := some 2, max_players := none, holes := none
      , special := none, is_special := none }
      [] [{ start_time := some "9:00 AM", time := none, rate_price := none, price := none
          , green_fee := none, available_spots := none, remaining_spots := none
          , holes := none, nb_holes := none, is_deal := none, special_rate := none }]
      { start_time := none, time := none, rate_price := none, price := none
      , green_fee := none, available_spots := none, remaining_spots := none
      , holes := none, nb_holes := none, is_deal := none, special_rate := none }
      rfl rfl).1
  · exact (c6_missing_time_skipped
      [{ time := some "8:00 AM", start_time := none, green_fee := none, price := none
       , available_spots := none, max_players := none, holes := none
       , special := none, is_special := none }] []
      { time := none, start_time := none, green_fee := some 30, price := none
      , available_spots := some 2, max_players := none, holes := none
      , special := none, is_special := none }
      [] [{ start_time := some "9:00 AM", time := none, rate_price := none, price := none
          , green_fee := none, available_spots := none, remaining_spots := none
          , holes := none, nb_holes := none, is_deal := none, special_rate := none }]
      { start_time := none, time := none, rate_price := none, price := none
      , green_fee := none, available_spots := none, remaining_spots := none
      , holes := none, nb_holes := none, is_deal := none, special_rate := none }
      rfl rfl).2

/-- C7: on a cache miss, a transport/timeout/extraction failure is absorbed at
the scraper boundary for both the browser-rendered and the direct-API scraper:
the call returns the empty slot sequence and leaves the cache exactly as it
was, so a later call for the same key (at any later time) still misses and
performs a fresh upstream fetch. -/
theorem c7_failure_not_cached (course : Course) (date : String) (c : CacheStore)
    (now now' : Nat) (elems : List GolfNowElem)
    (hg : cacheGet c now (gnKey course date) = none)
    (hf : cacheGet c now (fuKey course date) = none)
    (hle : now ≤ now') :
    (golfNowScrape course date true GnStep.fetchFail c now).1 = [] ∧
    (golfNowScrape course date true GnStep.fetchFail c now).2.1 = c ∧
    (foreUpScrape course date FuStep.fail c now).1 = [] ∧
    (foreUpScrape course date FuStep.fail c now).2.1 = c ∧
    Ev.fetch ∈ (golfNowScrape course date true (GnStep.fetchOk elems)
        (golfNowScrape course date true GnStep.fetchFail c now).2.1 now').2.2 := by
  have h1 : golfNowScrape course date true GnStep.fetchFail c now =
      ([], c, [Ev.cacheGet (gnKey course date), Ev.pageOpen]) := by
    unfold golfNowScrape
    simp [hg]
  have hg' : cacheGet c now' (gnKey course date) = none :=
    cacheGet_none_mono c (gnKey course date) now now' hg hle
  have h2 : (foreUpScrape course date FuStep.fail c now).1 = [] ∧
      (foreUpScrape course date FuStep.fail c now).2.1 = c := by
    unfold foreUpScrape
    cases hbk : bookingIds course.bookingUrl <;> simp [hf, hbk]
  refine ⟨by rw [h1], by rw [h1], h2.1, h2.2, ?_⟩
  rw [h1]
  unfold golfNowScrape
  simp [hg']

/-- C7 (witness): the failure-isolation theorem at an empty cache, failing at
time 0 and retrying successfully at time 5. -/
theorem c7_failure_witness :
    (cacheGet ([] : CacheStore) 0 (gnKey riverOaks "2026-10-11") = none ∧
     cacheGet ([] : CacheStore) 0 (fuKey riverOaks "2026-10-11") = none ∧
     (0 : Nat) ≤ 5) ∧
    ((golfNowScrape riverOaks "2026-10-11" true GnStep.fetchFail ([] : CacheStore) 0).1 = [] ∧
     (golfNowScrape riverOaks "2026-10-11" true GnStep.fetchFail ([] : CacheStore) 0).2.1 = [] ∧
     (foreUpScrape riverOaks "2026-10-11" FuStep.fail ([] : CacheStore) 0).1 = [] ∧
     (foreUpScrape riverOaks "2026-10-11" FuStep.fail ([] : CacheStore) 0).2.1 = [] ∧
     Ev.fetch ∈ (golfNowScrape riverOaks "2026-10-11" true (GnStep.fetchOk [])
        (golfNowScrape riverOaks "2026-10-11" true GnStep.fetchFail ([] : CacheStore) 0).2.1 5).2.2) :=
  ⟨⟨rfl, rfl, by decide⟩,
    c7_failure_not_cached riverOaks "2026-10-11" ([] : CacheStore) 0 5 [] rfl rfl (by decide)⟩
